import Mathlib

/-!
# Verification of the MooseSystem coordination layer

A shallow embedding of the observable behaviour of `MooseSystem`
(framework/include/base/MooseSystem.h).  The only member function whose body is
present in the sources is the template `MooseSystem::setAdaptivityParam`, which
is embedded directly.  The remaining operations are declared in the header but
their bodies live in translation units that are not part of the sources; those
are modelled from the specification, as indicated by their doc comments.
-/

namespace MooseSystem

/-! ## Adaptivity parameters (MooseSystem::setAdaptivityParam) -/

/-- The refinement controls of the `MeshRefinement` object referenced by
`MooseSystem::_mesh_refinement`.  The C++ template assigns the same
(converted) `param_value` to whichever control is named, so the three
controls are modelled with a common value type `α`. -/
structure MeshRefinement (α : Type) where
  refine_fraction : α
  coarsen_fraction : α
  max_h_level : α
deriving Repr, DecidableEq

/-- Embedding of `MooseSystem::setAdaptivityParam` (MooseSystem.h, lines
809-829): a cascade of string comparisons on `param_name`; the final `else`
branch is empty (only a TODO comment), so unrecognized names leave the
refinement controls untouched. -/
def setAdaptivityParam {α : Type} (mr : MeshRefinement α) (param_name : String)
    (param_value : α) : MeshRefinement α :=
  if param_name = "refine fraction" then
    { mr with refine_fraction := param_value }
  else if param_name = "coarsen fraction" then
    { mr with coarsen_fraction := param_value }
  else if param_name = "max h-level" then
    { mr with max_h_level := param_value }
  else
    mr

/-! ## Field registry (variables and auxiliary variables) -/

/-- First index of `name` in a list of variable names, or `none` when the name
is not registered.  This is the name-to-dense-id map maintained by the field
registry. -/
def lookupIndex : List String → String → Option Nat
  | [], _ => none
  | n :: rest, name =>
    if name = n then some 0 else (lookupIndex rest name).map (· + 1)

/-- The field registry of a `MooseSystem`: the registered nonlinear
("solution") variable names and the registered auxiliary variable names, each
in registration order, so that a name's position is its dense numeric id. -/
structure FieldRegistry where
  var_names : List String
  aux_var_names : List String
deriving Repr, DecidableEq

/-- Modelled from the spec: the body of `MooseSystem::getVariableNumber` is not
in the provided sources.  Per the spec it maps a registered name to its dense
numeric id and fails with a "not found" error on unknown names. -/
def getVariableNumber (r : FieldRegistry) (var_name : String) :
    Except String Nat :=
  match lookupIndex r.var_names var_name with
  | some i => Except.ok i
  | none => Except.error ("Variable " ++ var_name ++ " not found")

/-- Modelled from the spec: the body of `MooseSystem::getAuxVariableNumber` is
not in the provided sources.  Same contract as `getVariableNumber`, over the
auxiliary name space. -/
def getAuxVariableNumber (r : FieldRegistry) (var_name : String) :
    Except String Nat :=
  match lookupIndex r.aux_var_names var_name with
  | some i => Except.ok i
  | none => Except.error ("Aux variable " ++ var_name ++ " not found")

/-- Modelled from the spec: the body of `MooseSystem::addVariable` is not in
the provided sources.  Per the spec it registers a new field, returning a
dense numeric id, and re-registering an existing name is an error reported at
registration time. -/
def addVariable (r : FieldRegistry) (var : String) :
    Except String (FieldRegistry × Nat) :=
  if var ∈ r.var_names then
    Except.error ("Variable " ++ var ++ " already exists")
  else
    Except.ok ({ r with var_names := r.var_names ++ [var] }, r.var_names.length)

/-- Modelled from the spec: the body of `MooseSystem::addAuxVariable` is not in
the provided sources.  Same contract as `addVariable`, over the auxiliary name
space. -/
def addAuxVariable (r : FieldRegistry) (var : String) :
    Except String (FieldRegistry × Nat) :=
  if var ∈ r.aux_var_names then
    Except.error ("Variable " ++ var ++ " already exists")
  else
    Except.ok ({ r with aux_var_names := r.aux_var_names ++ [var] },
      r.aux_var_names.length)

/-- Modelled from the spec: the body of `MooseSystem::modifiedAuxVarNum` is not
in the provided sources.  Per the spec it deterministically maps an auxiliary
id into an unused region of the solution id space by offsetting it by the
solution-field count, so Jacobian code indexing by variable number sees no
collision with real solution ids. -/
def modifiedAuxVarNum (num_vars : Nat) (var_num : Nat) : Nat :=
  num_vars + var_num

/-! ## Contribution warehouses -/

/-- The per-kind contribution warehouses of a `MooseSystem`
(`_kernels`, `_dg_kernels`, `_bcs`, `_auxs`, `_materials`, `_stabilizers`,
`_ics`, `_pps`, `_functions`, `_dampers`), each recorded here by the instance
names it holds, in insertion order.  The auxiliary warehouse is split into
its aux-kernel and aux-BC parts, matching the two registration entry points
`addAuxKernel` and `addAuxBC`. -/
structure Warehouses where
  kernels : List String
  dg_kernels : List String
  bcs : List String
  aux_kernels : List String
  aux_bcs : List String
  materials : List String
  stabilizers : List String
  ics : List String
  pps : List String
  functions : List String
  dampers : List String
deriving Repr, DecidableEq

/-- Modelled from the spec: the body of `MooseSystem::addKernel` is not in the
provided sources.  Per the spec it inserts one contribution under the given
instance name, and a duplicate instance name for the same kind is an error
reported at registration time. -/
def addKernel (w : Warehouses) (name : String) : Except String Warehouses :=
  if name ∈ w.kernels then
    Except.error ("Kernel " ++ name ++ " already exists")
  else
    Except.ok { w with kernels := w.kernels ++ [name] }

/-- Modelled from the spec: the body of `MooseSystem::addDGKernel` is not in
the provided sources.  Same contract as `addKernel`, for interface (DG)
kernels. -/
def addDGKernel (w : Warehouses) (name : String) : Except String Warehouses :=
  if name ∈ w.dg_kernels then
    Except.error ("DGKernel " ++ name ++ " already exists")
  else
    Except.ok { w with dg_kernels := w.dg_kernels ++ [name] }

/-- Modelled from the spec: the body of `MooseSystem::addBC` is not in the
provided sources.  Same contract as `addKernel`, for boundary conditions. -/
def addBC (w : Warehouses) (name : String) : Except String Warehouses :=
  if name ∈ w.bcs then
    Except.error ("BC " ++ name ++ " already exists")
  else
    Except.ok { w with bcs := w.bcs ++ [name] }

/-- Modelled from the spec: the body of `MooseSystem::addAuxKernel` is not in
the provided sources.  Same contract as `addKernel`, for auxiliary-field
updates. -/
def addAuxKernel (w : Warehouses) (name : String) : Except String Warehouses :=
  if name ∈ w.aux_kernels then
    Except.error ("AuxKernel " ++ name ++ " already exists")
  else
    Except.ok { w with aux_kernels := w.aux_kernels ++ [name] }

/-- Modelled from the spec: the body of `MooseSystem::addAuxBC` is not in the
provided sources.  Same contract as `addKernel`, for auxiliary boundary
conditions. -/
def addAuxBC (w : Warehouses) (name : String) : Except String Warehouses :=
  if name ∈ w.aux_bcs then
    Except.error ("AuxBC " ++ name ++ " already exists")
  else
    Except.ok { w with aux_bcs := w.aux_bcs ++ [name] }

/-- Modelled from the spec: the body of `MooseSystem::addMaterial` is not in
the provided sources.  Same contract as `addKernel`, for materials. -/
def addMaterial (w : Warehouses) (name : String) : Except String Warehouses :=
  if name ∈ w.materials then
    Except.error ("Material " ++ name ++ " already exists")
  else
    Except.ok { w with materials := w.materials ++ [name] }

/-- Modelled from the spec: the body of `MooseSystem::addStabilizer` is not in
the provided sources.  Same contract as `addKernel`, for stabilizers. -/
def addStabilizer (w : Warehouses) (name : String) : Except String Warehouses :=
  if name ∈ w.stabilizers then
    Except.error ("Stabilizer " ++ name ++ " already exists")
  else
    Except.ok { w with stabilizers := w.stabilizers ++ [name] }

/-- Modelled from the spec: the body of `MooseSystem::addInitialCondition` is
not in the provided sources.  Same contract as `addKernel`, for initial
conditions. -/
def addInitialCondition (w : Warehouses) (name : String) :
    Except String Warehouses :=
  if name ∈ w.ics then
    Except.error ("InitialCondition " ++ name ++ " already exists")
  else
    Except.ok { w with ics := w.ics ++ [name] }

/-- Modelled from the spec: the body of `MooseSystem::addPostprocessor` is not
in the provided sources.  Same contract as `addKernel`, for
postprocessors. -/
def addPostprocessor (w : Warehouses) (name : String) :
    Except String Warehouses :=
  if name ∈ w.pps then
    Except.error ("Postprocessor " ++ name ++ " already exists")
  else
    Except.ok { w with pps := w.pps ++ [name] }

/-- Modelled from the spec: the body of `MooseSystem::addFunction` is not in
the provided sources.  Same contract as `addKernel`, for functions. -/
def addFunction (w : Warehouses) (name : String) : Except String Warehouses :=
  if name ∈ w.functions then
    Except.error ("Function " ++ name ++ " already exists")
  else
    Except.ok { w with functions := w.functions ++ [name] }

/-- Modelled from the spec: the body of `MooseSystem::addDamper` is not in the
provided sources.  Same contract as `addKernel`, for dampers. -/
def addDamper (w : Warehouses) (name : String) : Except String Warehouses :=
  if name ∈ w.dampers then
    Except.error ("Damper " ++ name ++ " already exists")
  else
    Except.ok { w with dampers := w.dampers ++ [name] }

/-! ## Damping -/

/-- Modelled from the spec: the body of `MooseSystem::computeDamping` is not in
the provided sources.  Per the spec it queries every damper contribution, over
every field and node/element the damper applies to, for a bounding factor on
the Newton update and returns the minimum (most restrictive) factor; a factor
of 1.0 means "no restriction", so the fold starts from 1.  `factors` is the
list of factors proposed by all (damper, field, node/element) combinations. -/
def computeDamping (factors : List ℚ) : ℚ :=
  factors.foldl min 1

/-! ## Residual computation and the residual copy -/

/-- The residual-related state of a `MooseSystem` during `computeResidual`:
the residual vector being assembled and the stored copy
(`MooseSystem::_residual_copy`), which is only filled when requested. -/
structure ResidualState where
  residual : List ℚ
  residual_copy : Option (List ℚ)
deriving Repr, DecidableEq

/-- The copy step inside `computeResidual`: when `_need_residual_copy` is set,
store a full copy of the residual as it stands at this point. -/
def copyResidualStep (need_residual_copy : Bool) (s : ResidualState) :
    ResidualState :=
  if need_residual_copy then { s with residual_copy := some s.residual } else s

/-- Modelled from the spec: the body of `MooseSystem::computeResidual` is not
in the provided sources.  Per the spec (and the doc comment of
`needResidualCopy` in MooseSystem.h, lines 329-337): the residual is
assembled, then, if `_need_residual_copy` is set, the residual is copied
"just after the internal residual fill... and before dirichlet bcs", and
finally Dirichlet boundary conditions are enforced by direct row replacement.
`assembled` is the result of the internal residual fill and
`applyDirichletBCs` the row-replacement pass. -/
def computeResidual (need_residual_copy : Bool) (assembled : List ℚ)
    (applyDirichletBCs : List ℚ → List ℚ) (s : ResidualState) : ResidualState :=
  let s1 : ResidualState := { s with residual := assembled }
  let s2 := copyResidualStep need_residual_copy s1
  { s2 with residual := applyDirichletBCs s2.residual }

/-! ## Mesh binding, cached traversal ranges -/

/-- The mesh-binding state of a `MooseSystem`: the active local elements and
nodes of the current mesh, the cached traversal ranges
(`_active_local_elem_range`, `_active_node_range`, `none` when invalidated),
and the `_mesh_changed` flag. -/
structure MeshSysState where
  elems : List Nat
  nodes : List Nat
  active_local_elem_range : Option (List Nat)
  active_node_range : Option (List Nat)
  mesh_changed : Bool
deriving Repr, DecidableEq

/-- Modelled from the spec: the body of `MooseSystem::meshChanged` is not in
the provided sources.  Per the spec it invalidates the cached element/node
ranges (forcing a rebuild on next access) and records that the mesh has
changed. -/
def meshChanged (s : MeshSysState) : MeshSysState :=
  { s with
    active_local_elem_range := none
    active_node_range := none
    mesh_changed := true }

/-- Modelled from the spec: the body of
`MooseSystem::getActiveLocalElementRange` is not in the provided sources.  Per
its doc comment it returns the cached range, automatically building it from
the current mesh if it has not been initialized.  Returns the range together
with the updated state. -/
def getActiveLocalElementRange (s : MeshSysState) :
    List Nat × MeshSysState :=
  match s.active_local_elem_range with
  | some r => (r, s)
  | none => (s.elems, { s with active_local_elem_range := some s.elems })

/-- Modelled from the spec: the body of `MooseSystem::getActiveNodeRange` is
not in the provided sources.  Same contract as `getActiveLocalElementRange`,
for the node range. -/
def getActiveNodeRange (s : MeshSysState) : List Nat × MeshSysState :=
  match s.active_node_range with
  | some r => (r, s)
  | none => (s.nodes, { s with active_node_range := some s.nodes })

/-! ## Mesh accessors and the validity check -/

/-- The meshes owned by a `MooseSystem`: the primary mesh and the optional
displaced mesh, each `none` while uninitialized.  A mesh is modelled by its
element list. -/
structure MeshBinding where
  mesh : Option (List Nat)
  displaced_mesh : Option (List Nat)
deriving Repr, DecidableEq

/-- Modelled from the spec: the body of `MooseSystem::getMesh` is not in the
provided sources.  Per the spec it fails with an "uninitialized system" error
unless the validity check is explicitly skipped via `skip_full_check`. -/
def getMesh (s : MeshBinding) (skip_full_check : Bool) :
    Except String (Option (List Nat)) :=
  if skip_full_check then
    Except.ok s.mesh
  else if s.mesh = none then
    Except.error "Uninitialized system"
  else
    Except.ok s.mesh

/-- Modelled from the spec: the body of `MooseSystem::getDisplacedMesh` is not
in the provided sources.  Same contract as `getMesh`, for the displaced
mesh. -/
def getDisplacedMesh (s : MeshBinding) (skip_full_check : Bool) :
    Except String (Option (List Nat)) :=
  if skip_full_check then
    Except.ok s.displaced_mesh
  else if s.displaced_mesh = none then
    Except.error "Uninitialized system"
  else
    Except.ok s.displaced_mesh

/-! ## Variable scaling -/

/-- The scaling state of the nonlinear system: the number of nonlinear
variables and the per-variable scaling factors
(`MooseSystem::_scaling_factor`). -/
structure ScalingState where
  num_vars : Nat
  scaling_factor : List ℚ
deriving Repr, DecidableEq

/-- Modelled from the spec: the initial scaling state.  Per the doc comment of
`setVarScaling` in MooseSystem.h (lines 392-399), "the initial scaling is just
1 for each variable". -/
def initScaling (n : Nat) : ScalingState :=
  { num_vars := n, scaling_factor := List.replicate n 1 }

/-- Modelled from the spec: the body of `MooseSystem::setVarScaling` is not in
the provided sources.  Per its doc comment it specifies per-variable scaling
factors (the vector's size must equal the number of nonlinear variables) and
can be called multiple times to change the scaling. -/
def setVarScaling (s : ScalingState) (scaling : List ℚ) : ScalingState :=
  { s with scaling_factor := scaling }

/-! ## Helper lemmas about `lookupIndex` -/

/-- When `lookupIndex` returns an index, the list holds the name there. -/
theorem lookupIndex_getElem {l : List String} {name : String} :
    ∀ {i : Nat}, lookupIndex l name = some i → l[i]? = some name := by
  induction l with
  | nil => intro i h; simp [lookupIndex] at h
  | cons n rest ih =>
    intro i h
    rw [lookupIndex] at h
    by_cases hn : name = n
    · rw [if_pos hn] at h
      cases h
      simp [hn]
    · rw [if_neg hn] at h
      rcases Option.map_eq_some'.mp h with ⟨j, hj, hij⟩
      subst hij
      simpa using ih hj

/-- An index returned by `lookupIndex` is in range. -/
theorem lookupIndex_lt_length {l : List String} {name : String} :
    ∀ {i : Nat}, lookupIndex l name = some i → i < l.length := by
  induction l with
  | nil => intro i h; simp [lookupIndex] at h
  | cons n rest ih =>
    intro i h
    rw [lookupIndex] at h
    by_cases hn : name = n
    · rw [if_pos hn] at h
      cases h
      simp
    · rw [if_neg hn] at h
      rcases Option.map_eq_some'.mp h with ⟨j, hj, hij⟩
      subst hij
      simpa using ih hj

/-- `lookupIndex` fails exactly on unregistered names. -/
theorem lookupIndex_none {l : List String} {name : String} (h : name ∉ l) :
    lookupIndex l name = none := by
  induction l with
  | nil => rfl
  | cons n rest ih =>
    rw [lookupIndex]
    have h1 : name ≠ n := fun he => h (he ▸ List.mem_cons_self n rest)
    have h2 : name ∉ rest := fun hm => h (List.mem_cons_of_mem n hm)
    rw [if_neg h1, ih h2]
    rfl

/-- Every registered name is found by `lookupIndex`. -/
theorem lookupIndex_mem {l : List String} {name : String} (h : name ∈ l) :
    ∃ i, lookupIndex l name = some i := by
  induction l with
  | nil => simp at h
  | cons n rest ih =>
    by_cases hn : name = n
    · exact ⟨0, by rw [lookupIndex, if_pos hn]⟩
    · have hr : name ∈ rest := by
        rcases List.mem_cons.mp h with h1 | h2
        · exact absurd h1 hn
        · exact h2
      rcases ih hr with ⟨j, hj⟩
      exact ⟨j + 1, by rw [lookupIndex, if_neg hn, hj]; rfl⟩

/-- On a duplicate-free list, the name at position `i` looks up to `i`. -/
theorem lookupIndex_of_nodup {l : List String} (hnd : l.Nodup) :
    ∀ (i : Nat) (hi : i < l.length), lookupIndex l (l.get ⟨i, hi⟩) = some i := by
  induction l with
  | nil => intro i hi; simp at hi
  | cons n rest ih =>
    intro i hi
    cases i with
    | zero => simp [lookupIndex]
    | succ j =>
      have hj : j < rest.length := by simpa using hi
      have hget : (n :: rest).get ⟨j + 1, hi⟩ = rest.get ⟨j, hj⟩ := rfl
      rw [lookupIndex, hget]
      have hne : rest.get ⟨j, hj⟩ ≠ n := by
        intro heq
        exact (List.nodup_cons.mp hnd).1 (heq ▸ List.get_mem rest j hj)
      rw [if_neg hne, ih (List.nodup_cons.mp hnd).2 j hj]
      rfl

/-- Inverting the match in `getVariableNumber` on success. -/
theorem getVariableNumber_ok {r : FieldRegistry} {name : String} {i : Nat}
    (h : getVariableNumber r name = Except.ok i) :
    lookupIndex r.var_names name = some i := by
  rw [getVariableNumber] at h
  cases hl : lookupIndex r.var_names name with
  | none => rw [hl] at h; exact Except.noConfusion h
  | some j => rw [hl] at h; injection h with h2; rw [h2]

/-! ## Helper lemmas about the fold in `computeDamping` -/

/-- Folding `min` never goes above the starting value. -/
theorem foldl_min_le_init (fs : List ℚ) : ∀ a : ℚ, fs.foldl min a ≤ a := by
  induction fs with
  | nil => intro a; simp
  | cons f rest ih =>
    intro a
    rw [List.foldl_cons]
    calc rest.foldl min (min a f) ≤ min a f := ih (min a f)
    _ ≤ a := min_le_left a f

/-- Folding `min` is a lower bound on every list element. -/
theorem foldl_min_le_mem (fs : List ℚ) :
    ∀ (a f : ℚ), f ∈ fs → fs.foldl min a ≤ f := by
  induction fs with
  | nil => intro a f h; simp at h
  | cons g rest ih =>
    intro a f h
    rw [List.foldl_cons]
    rcases List.mem_cons.mp h with h1 | h2
    · subst h1
      calc rest.foldl min (min a f) ≤ min a f := foldl_min_le_init rest (min a f)
      _ ≤ f := min_le_right a f
    · exact ih (min a g) f h2

/-- Folding `min` returns the starting value or some list element. -/
theorem foldl_min_mem (fs : List ℚ) :
    ∀ a : ℚ, fs.foldl min a = a ∨ fs.foldl min a ∈ fs := by
  induction fs with
  | nil => intro a; left; rfl
  | cons g rest ih =>
    intro a
    rw [List.foldl_cons]
    rcases ih (min a g) with h | h
    · rw [h]
      rcases min_choice a g with h1 | h1
      · left; exact h1
      · right; rw [h1]; exact List.mem_cons_self g rest
    · right; exact List.mem_cons_of_mem g h

/-! ## Claim theorems -/

/-- C1: `setAdaptivityParam` sets the refine-fraction control when called with
"refine fraction", the coarsen-fraction control when called with
"coarsen fraction", the max-h-level control when called with "max h-level",
and for every other parameter name it silently does nothing: no error is
raised and no refinement control changes. -/
theorem setAdaptivityParam_cases {α : Type} (mr : MeshRefinement α)
    (name : String) (v : α)
    (hn : name ≠ "refine fraction" ∧ name ≠ "coarsen fraction" ∧
      name ≠ "max h-level") :
    setAdaptivityParam mr ("refine fraction") v =
      { mr with refine_fraction := v } ∧
    setAdaptivityParam mr ("coarsen fraction") v =
      { mr with coarsen_fraction := v } ∧
    setAdaptivityParam mr ("max h-level") v = { mr with max_h_level := v } ∧
    setAdaptivityParam mr name v = mr := by
  refine ⟨?_, ?_, ?_, ?_⟩
  · rw [setAdaptivityParam, if_pos rfl]
  · rw [setAdaptivityParam, if_neg (by decide), if_pos rfl]
  · rw [setAdaptivityParam, if_neg (by decide), if_neg (by decide), if_pos rfl]
  · rw [setAdaptivityParam, if_neg hn.1, if_neg hn.2.1, if_neg hn.2.2]

/-- Witness for `setAdaptivityParam_cases`: a recognized name sets its
control and an unrecognized name changes nothing. -/
theorem setAdaptivityParam_cases_witness :
    setAdaptivityParam (⟨0, 0, 0⟩ : MeshRefinement ℚ) ("refine fraction") 1 =
      ⟨1, 0, 0⟩ ∧
    setAdaptivityParam (⟨0, 0, 0⟩ : MeshRefinement ℚ) ("bogus") 1 =
      ⟨0, 0, 0⟩ := by
  have h := setAdaptivityParam_cases (⟨0, 0, 0⟩ : MeshRefinement ℚ) ("bogus") 1
    ⟨by decide, by decide, by decide⟩
  exact ⟨h.1, h.2.2.2⟩

/-- C2: for any fixed solution-field count, `modifiedAuxVarNum` is injective
over auxiliary ids and its result never equals any valid solution-field id
(an id below the solution-field count); being a plain function of the
auxiliary id and the solution-field count, it is pure by construction. -/
theorem modifiedAuxVarNum_injective_disjoint (num_vars : Nat) :
    Function.Injective (modifiedAuxVarNum num_vars) ∧
    ∀ var_num s, s < num_vars → modifiedAuxVarNum num_vars var_num ≠ s := by
  constructor
  · intro a b h
    exact Nat.add_left_cancel h
  · intro v s hs heq
    rw [modifiedAuxVarNum] at heq
    omega

/-- Witness for `modifiedAuxVarNum_injective_disjoint`: with 3 solution
fields, auxiliary id 0 is not mapped onto solution id 2. -/
theorem modifiedAuxVarNum_injective_disjoint_witness :
    modifiedAuxVarNum 3 0 ≠ 2 :=
  (modifiedAuxVarNum_injective_disjoint 3).2 0 2 (by decide)

/-- C3: `computeDamping` returns the minimum of the factors proposed by the
damper contributions over all fields and nodes/elements they apply to: when
the proposed factors are genuine damping factors (at most 1) and at least one
is proposed, the result is one of the proposed factors and a lower bound of
all of them; on proposals 0.5 and 0.8 the result is 0.5; and a damper
proposing 1.0 imposes no restriction. -/
theorem computeDamping_min (fs : List ℚ) (hle : ∀ f ∈ fs, f ≤ 1)
    (hne : fs ≠ []) :
    computeDamping fs ∈ fs ∧
    (∀ f ∈ fs, computeDamping fs ≤ f) ∧
    computeDamping [1 / 2, 4 / 5] = 1 / 2 ∧
    (∀ gs : List ℚ, computeDamping (1 :: gs) = computeDamping gs) := by
  refine ⟨?_, ?_, ?_, ?_⟩
  · rcases foldl_min_mem fs 1 with h | h
    · rcases List.exists_mem_of_ne_nil fs hne with ⟨f, hf⟩
      have h1 : computeDamping fs ≤ f := foldl_min_le_mem fs 1 f hf
      have h2 : f ≤ computeDamping fs := by
        rw [computeDamping, h]
        exact hle f hf
      have h3 : computeDamping fs = f := le_antisymm h1 h2
      rw [h3]
      exact hf
    · exact h
  · intro f hf
    exact foldl_min_le_mem fs 1 f hf
  · rw [computeDamping, List.foldl_cons, List.foldl_cons, List.foldl_nil]
    rw [min_eq_right (by norm_num : (1 : ℚ) / 2 ≤ 1)]
    exact min_eq_left (by norm_num)
  · intro gs
    rw [computeDamping, computeDamping, List.foldl_cons, min_self]

/-- Witness for `computeDamping_min` at the spec's scenario: factors 0.5 and
0.8 give 0.5, which is among the proposed factors. -/
theorem computeDamping_min_witness :
    computeDamping [1 / 2, 4 / 5] ∈ ([1 / 2, 4 / 5] : List ℚ) :=
  (computeDamping_min [1 / 2, 4 / 5] (by norm_num) (by simp)).1

/-- C4: when the residual copy was requested (`needResidualCopy(true)`), the
stored copy produced by `computeResidual` is taken strictly after residual
assembly and strictly before Dirichlet enforcement: after the call the stored
copy equals the assembled (pre-Dirichlet-enforcement) residual exactly, while
the returned residual reflects the post-enforcement values. -/
theorem computeResidual_copy (assembled : List ℚ)
    (applyDirichletBCs : List ℚ → List ℚ) (s : ResidualState) :
    (computeResidual true assembled applyDirichletBCs s).residual_copy =
      some assembled ∧
    (computeResidual true assembled applyDirichletBCs s).residual =
      applyDirichletBCs assembled := by
  exact ⟨rfl, rfl⟩

/-- C5: restricted to registered names, `getVariableNumber` is a bijection
onto the dense id range `[0, N)` where `N` is the number of registered
solution fields: every registered name maps to an id below `N`, distinct
names map to distinct ids, every id below `N` is hit, and `getVariableNumber`
(likewise `getAuxVariableNumber`) fails with a not-found error on an
unregistered name. -/
theorem getVariableNumber_bijection (r : FieldRegistry)
    (hnd : r.var_names.Nodup) :
    (∀ name ∈ r.var_names, ∃ i, i < r.var_names.length ∧
      getVariableNumber r name = Except.ok i) ∧
    (∀ name₁ name₂ i, getVariableNumber r name₁ = Except.ok i →
      getVariableNumber r name₂ = Except.ok i → name₁ = name₂) ∧
    (∀ i, i < r.var_names.length → ∃ name ∈ r.var_names,
      getVariableNumber r name = Except.ok i) ∧
    (∀ name, name ∉ r.var_names → getVariableNumber r name =
      Except.error ("Variable " ++ name ++ " not found")) ∧
    (∀ name, name ∉ r.aux_var_names → getAuxVariableNumber r name =
      Except.error ("Aux variable " ++ name ++ " not found")) := by
  refine ⟨?_, ?_, ?_, ?_, ?_⟩
  · intro name h
    rcases lookupIndex_mem h with ⟨i, hi⟩
    refine ⟨i, lookupIndex_lt_length hi, ?_⟩
    rw [getVariableNumber, hi]
  · intro name₁ name₂ i h1 h2
    have g1 := lookupIndex_getElem (getVariableNumber_ok h1)
    have g2 := lookupIndex_getElem (getVariableNumber_ok h2)
    exact Option.some.inj (g1.symm.trans g2)
  · intro i hi
    refine ⟨r.var_names.get ⟨i, hi⟩, List.get_mem r.var_names i hi, ?_⟩
    rw [getVariableNumber, lookupIndex_of_nodup hnd i hi]
  · intro name h
    rw [getVariableNumber, lookupIndex_none h]
  · intro name h
    rw [getAuxVariableNumber, lookupIndex_none h]

/-- Witness for `getVariableNumber_bijection` at a concrete registry: a
registered name gets its dense id and an unregistered name is a not-found
error. -/
theorem getVariableNumber_bijection_witness :
    getVariableNumber ⟨["u", "v"], ["a"]⟩ ("v") = Except.ok 1 ∧
    getVariableNumber ⟨["u", "v"], ["a"]⟩ ("w") =
      Except.error ("Variable " ++ "w" ++ " not found") := by
  have h := getVariableNumber_bijection ⟨["u", "v"], ["a"]⟩ (by decide)
  refine ⟨?_, h.2.2.2.1 ("w") (by decide)⟩
  rfl

/-- C6: calling `meshChanged` twice in succession with no mesh mutation in
between is idempotent with respect to the cached traversal state: the active
local element range and the active node range obtained after the second call
equal those obtained after the first call. -/
theorem meshChanged_idempotent (s : MeshSysState) :
    (getActiveLocalElementRange
        (meshChanged (getActiveLocalElementRange (meshChanged s)).2)).1 =
      (getActiveLocalElementRange (meshChanged s)).1 ∧
    (getActiveNodeRange
        (meshChanged (getActiveNodeRange (meshChanged s)).2)).1 =
      (getActiveNodeRange (meshChanged s)).1 ∧
    getActiveLocalElementRange (meshChanged (meshChanged s)) =
      getActiveLocalElementRange (meshChanged s) ∧
    getActiveNodeRange (meshChanged (meshChanged s)) =
      getActiveNodeRange (meshChanged s) := by
  exact ⟨rfl, rfl, rfl, rfl⟩

/-- C7: `meshChanged` invalidates the cached active element range and active
node range, and the next `getActiveLocalElementRange` (respectively
`getActiveNodeRange`) call rebuilds the range from the current mesh rather
than returning or failing on the stale cached one. -/
theorem meshChanged_invalidates (s : MeshSysState) :
    (meshChanged s).active_local_elem_range = none ∧
    (meshChanged s).active_node_range = none ∧
    (getActiveLocalElementRange (meshChanged s)).1 = s.elems ∧
    (getActiveNodeRange (meshChanged s)).1 = s.nodes := by
  exact ⟨rfl, rfl, rfl, rfl⟩

/-- C8: on every System state whose primary mesh has not been initialized
(`s`, displaced mesh arbitrary), `getMesh` fails with an "uninitialized
system" error when its validity check is enabled (`skip_full_check = false`)
and does not fail for that reason when the check is explicitly skipped
(`skip_full_check = true`); likewise `getDisplacedMesh` on every state whose
displaced mesh has not been initialized (`s'`, primary mesh arbitrary, in
particular possibly initialized). -/
theorem getMesh_uninitialized (s s' : MeshBinding) (hm : s.mesh = none)
    (hd : s'.displaced_mesh = none) :
    getMesh s false = Except.error "Uninitialized system" ∧
    getMesh s true = Except.ok none ∧
    getDisplacedMesh s' false = Except.error "Uninitialized system" ∧
    getDisplacedMesh s' true = Except.ok none := by
  refine ⟨?_, ?_, ?_, ?_⟩ <;>
    simp [getMesh, getDisplacedMesh, hm, hd]

/-- Witness for `getMesh_uninitialized` on a system with no primary mesh and
on a system whose primary mesh is initialized but whose displaced mesh is
not. -/
theorem getMesh_uninitialized_witness :
    getMesh ⟨none, some [1]⟩ false = Except.error "Uninitialized system" ∧
    getDisplacedMesh ⟨some [1], none⟩ false =
      Except.error "Uninitialized system" := by
  have h := getMesh_uninitialized ⟨none, some [1]⟩ ⟨some [1], none⟩ rfl rfl
  exact ⟨h.1, h.2.2.1⟩

/-- C9: for every registration operation (addVariable/addAuxVariable for
fields; addKernel, addDGKernel, addBC, addAuxKernel, addAuxBC, addMaterial,
addStabilizer, addInitialCondition, addPostprocessor, addFunction and
addDamper for contributions of a given kind), re-registering an already
registered name fails with an error raised by the registration call itself,
and a successful addVariable/addAuxVariable appends the name and returns the
current field count as the new id, so ids are assigned densely in
registration order. -/
theorem add_duplicate_errors (r : FieldRegistry) (w : Warehouses)
    (var k : String) (hv : var ∈ r.var_names) (ha : var ∈ r.aux_var_names)
    (hk : k ∈ w.kernels) (hdg : k ∈ w.dg_kernels) (hb : k ∈ w.bcs)
    (hak : k ∈ w.aux_kernels) (hab : k ∈ w.aux_bcs) (hmat : k ∈ w.materials)
    (hst : k ∈ w.stabilizers) (hic : k ∈ w.ics) (hpp : k ∈ w.pps)
    (hfn : k ∈ w.functions) (hdamp : k ∈ w.dampers) :
    addVariable r var =
      Except.error ("Variable " ++ var ++ " already exists") ∧
    addAuxVariable r var =
      Except.error ("Variable " ++ var ++ " already exists") ∧
    addKernel w k = Except.error ("Kernel " ++ k ++ " already exists") ∧
    addDGKernel w k = Except.error ("DGKernel " ++ k ++ " already exists") ∧
    addBC w k = Except.error ("BC " ++ k ++ " already exists") ∧
    addAuxKernel w k = Except.error ("AuxKernel " ++ k ++ " already exists") ∧
    addAuxBC w k = Except.error ("AuxBC " ++ k ++ " already exists") ∧
    addMaterial w k = Except.error ("Material " ++ k ++ " already exists") ∧
    addStabilizer w k =
      Except.error ("Stabilizer " ++ k ++ " already exists") ∧
    addInitialCondition w k =
      Except.error ("InitialCondition " ++ k ++ " already exists") ∧
    addPostprocessor w k =
      Except.error ("Postprocessor " ++ k ++ " already exists") ∧
    addFunction w k = Except.error ("Function " ++ k ++ " already exists") ∧
    addDamper w k = Except.error ("Damper " ++ k ++ " already exists") ∧
    (∀ v, v ∉ r.var_names → addVariable r v = Except.ok
      ({ r with var_names := r.var_names ++ [v] }, r.var_names.length)) ∧
    (∀ v, v ∉ r.aux_var_names → addAuxVariable r v = Except.ok
      ({ r with aux_var_names := r.aux_var_names ++ [v] },
        r.aux_var_names.length)) := by
  refine ⟨?_, ?_, ?_, ?_, ?_, ?_, ?_, ?_, ?_, ?_, ?_, ?_, ?_, ?_, ?_⟩
  · rw [addVariable, if_pos hv]
  · rw [addAuxVariable, if_pos ha]
  · rw [addKernel, if_pos hk]
  · rw [addDGKernel, if_pos hdg]
  · rw [addBC, if_pos hb]
  · rw [addAuxKernel, if_pos hak]
  · rw [addAuxBC, if_pos hab]
  · rw [addMaterial, if_pos hmat]
  · rw [addStabilizer, if_pos hst]
  · rw [addInitialCondition, if_pos hic]
  · rw [addPostprocessor, if_pos hpp]
  · rw [addFunction, if_pos hfn]
  · rw [addDamper, if_pos hdamp]
  · intro v hv2
    rw [addVariable, if_neg hv2]
  · intro v hv2
    rw [addAuxVariable, if_neg hv2]

/-- Witness for `add_duplicate_errors`: duplicate names are rejected (shown
for a field and for a damper contribution) and a fresh name gets the next
dense id. -/
theorem add_duplicate_errors_witness :
    addVariable ⟨["u"], ["u"]⟩ ("u") =
      Except.error ("Variable " ++ "u" ++ " already exists") ∧
    addDamper ⟨["k"], ["k"], ["k"], ["k"], ["k"], ["k"], ["k"], ["k"], ["k"],
        ["k"], ["k"]⟩ ("k") =
      Except.error ("Damper " ++ "k" ++ " already exists") ∧
    addVariable ⟨["u"], ["u"]⟩ ("v") = Except.ok (⟨["u", "v"], ["u"]⟩, 1) := by
  have h := add_duplicate_errors ⟨["u"], ["u"]⟩
    ⟨["k"], ["k"], ["k"], ["k"], ["k"], ["k"], ["k"], ["k"], ["k"], ["k"],
      ["k"]⟩ ("u") ("k") (by decide) (by decide) (by decide) (by decide)
    (by decide) (by decide) (by decide) (by decide) (by decide) (by decide)
    (by decide) (by decide) (by decide)
  exact ⟨h.1, h.2.2.2.2.2.2.2.2.2.2.2.2.1,
    h.2.2.2.2.2.2.2.2.2.2.2.2.2.1 ("v") (by decide)⟩

/-- C10: before any `setVarScaling` call every variable's scaling factor is 1;
under the precondition that the argument's size equals the number of
nonlinear variables, `setVarScaling` replaces the per-variable scaling
factors with the given values (preserving the size), and it may be called
again, each call replacing the factors. -/
theorem setVarScaling_replaces (s : ScalingState)
    (scaling scaling₂ : List ℚ) (h : scaling.length = s.num_vars) :
    (∀ q ∈ (initScaling s.num_vars).scaling_factor, q = 1) ∧
    (initScaling s.num_vars).scaling_factor.length = s.num_vars ∧
    (setVarScaling s scaling).scaling_factor = scaling ∧
    (setVarScaling s scaling).scaling_factor.length = s.num_vars ∧
    setVarScaling (setVarScaling s scaling) scaling₂ =
      setVarScaling s scaling₂ := by
  refine ⟨?_, ?_, rfl, ?_, rfl⟩
  · intro q hq
    exact List.eq_of_mem_replicate hq
  · rw [initScaling]
    exact List.length_replicate s.num_vars 1
  · exact h

/-- Witness for `setVarScaling_replaces` on a two-variable system. -/
theorem setVarScaling_replaces_witness :
    (setVarScaling ⟨2, [1, 1]⟩ [2, 3]).scaling_factor = [2, 3] :=
  (setVarScaling_replaces ⟨2, [1, 1]⟩ [2, 3] [4, 4] rfl).2.2.1

end MooseSystem
